import Mathlib

set_option autoImplicit false
set_option maxRecDepth 8000

/-! Verification of the skill validator (`skill-builder/scripts/validate_skill.py`).

The Python program is shallowly embedded: strings are modelled at the
codepoint level (`List Char`, matching Python's codepoint indexing), the
frontmatter parser and the rule sets are translated function by function,
and the file-system queries made by `validate_structure` / `validate_skill`
are modelled by a record (`SkillDir`) holding the answer each query would
return.  Character-class helpers (`str.strip`, `str.lower`) are modelled on
the ASCII range; every input appearing in the theorems below is ASCII. -/

/-- Mirrors the Python `Result` NamedTuple: `level` is "ERROR" or "WARN",
`check` is the diagnostic category. -/
structure Result where
  level : String
  check : String
  message : String
  deriving DecidableEq

/-- Whitespace set for the embedding of Python `str.strip()` (ASCII range:
space, tab, newline, carriage return, vertical tab, form feed). -/
def pyWs (c : Char) : Bool :=
  c == ' ' || c == '\t' || c == '\n' || c == '\r' || c == '\x0b' || c == '\x0c'

/-- Drop characters satisfying `p` from both ends (shape of Python `str.strip(chars)`). -/
def stripEnds (p : Char → Bool) (s : List Char) : List Char :=
  ((s.dropWhile p).reverse.dropWhile p).reverse

/-- Embedding of Python `str.strip()` (no argument). -/
def pyStrip (s : List Char) : List Char := stripEnds pyWs s

/-- The two quote characters of `strip("'\"")`: single quote (39) and double quote (34). -/
def isQuoteChar (c : Char) : Bool := c == Char.ofNat 39 || c == Char.ofNat 34

/-- Embedding of `value.strip("'\"")`: strip every leading/trailing quote character. -/
def stripQuotes (s : List Char) : List Char := stripEnds isQuoteChar s

/-- Embedding of Python `s.split("\n")`: split at every newline; the split of the
empty string is the one-element list `[[]]`, exactly as in Python. -/
def splitOnNl : List Char → List (List Char)
  | [] => [[]]
  | c :: rest =>
    if c == '\n' then [] :: splitOnNl rest
    else
      match splitOnNl rest with
      | [] => [[c]]
      | l :: ls => (c :: l) :: ls

/-- Embedding of Python `s.find(sub, start)`: the least index `i ≥ start` at which
`sub` occurs as a contiguous substring of `s`, or `none` (Python's `-1`). -/
def findFrom (s sub : List Char) (start : Nat) : Option Nat :=
  (List.range (s.length + 1)).find? (fun i => decide (start ≤ i) && sub.isPrefixOf (s.drop i))

/-- Embedding of `line.partition(":")` restricted to the two components the source
uses: the text before the first colon and the text after it. -/
def partitionColon (l : List Char) : List Char × List Char :=
  (l.takeWhile (fun c => c != ':'), (l.dropWhile (fun c => c != ':')).drop 1)

/-- Embedding of Python `sub in s` (substring containment). -/
def strContains (s sub : String) : Bool := (findFrom s.data sub.data 0).isSome

/-- Embedding of Python `s.startswith(p)`. -/
def pyStartswith (s p : String) : Bool := p.data.isPrefixOf s.data

/-- Embedding of Python `s.endswith(p)`. -/
def pyEndswith (s p : String) : Bool := p.data.isSuffixOf s.data

/-- Embedding of Python `s.lower()` (ASCII range). -/
def pyLower (s : String) : String := String.mk (s.data.map Char.toLower)

/-- Embedding of Python `c in s` for a single character. -/
def strHasChar (s : String) (c : Char) : Bool := s.data.any (fun x => x == c)

/-- Conditional single-diagnostic block: the shape of every
`if cond: results.append(r)` statement in the source. -/
def emitIf (b : Bool) (r : Result) : List Result := if b then [r] else []

/-- The parsed frontmatter mapping.  Python builds a `dict`; it is modelled as the
list of its entries in iteration order (insertion order of keys). -/
abbrev Meta := List (String × String)

/-- Embedding of `meta[key] = value` on a Python dict: overwrite in place if the key
exists (keeping its iteration position), otherwise append. -/
def dictInsert (m : Meta) (k v : String) : Meta :=
  if m.any (fun p => p.1 == k) then m.map (fun p => if p.1 == k then (k, v) else p)
  else m ++ [(k, v)]

/-- Embedding of `meta.get(key)`: the value stored at `key` (first occurrence;
`dictInsert` keeps keys unique for parser-produced maps). -/
def dictGet (m : Meta) (k : String) : Option String :=
  (m.find? (fun p => p.1 == k)).map (fun p => p.2)

/-- The line loop of `parse_frontmatter`: skip blank lines and `#` comment lines,
split each line containing a colon at the first colon, trim the key, trim the value
and strip surrounding quote characters, and store the pair. -/
def parseHeaderLines : List (List Char) → Meta → Meta
  | [], m => m
  | l :: rest, m =>
    let ls := pyStrip l
    if ls.isEmpty then parseHeaderLines rest m
    else if ls.headD ' ' == '#' then parseHeaderLines rest m
    else if ls.any (fun c => c == ':') then
      let kv := partitionColon ls
      parseHeaderLines rest
        (dictInsert m (String.mk (pyStrip kv.1)) (String.mk (stripQuotes (pyStrip kv.2))))
    else parseHeaderLines rest m

/-- The delimiter substring `"---"` that `parse_frontmatter` searches for. -/
def threeDashes : List Char := ['-', '-', '-']

/-- Embedding of `parse_frontmatter(text)`: if `text` starts with the substring
`---`, find the next occurrence of the substring `---` at index `≥ 3`; the region
between is stripped and parsed line by line and the rest (after those three
characters) is the stripped body.  Otherwise `(None, text)`. -/
def parse_frontmatter (text : String) : Option Meta × String :=
  let s := text.data
  if threeDashes.isPrefixOf s then
    match findFrom s threeDashes 3 with
    | none => (none, text)
    | some e =>
      (some (parseHeaderLines (splitOnNl (pyStrip ((s.drop 3).take (e - 3)))) []),
       String.mk (pyStrip (s.drop (e + 3))))
  else (none, text)

/-- Variant of the line loop that follows the specification's words for the *raw*
header value: the value as it appeared on the line (whitespace-trimmed only,
without the quote-stripping the source applies).  Used to compare the source's
behavior with the claim that the block-scalar rule inspects the raw value. -/
def parseHeaderLinesRaw : List (List Char) → Meta → Meta
  | [], m => m
  | l :: rest, m =>
    let ls := pyStrip l
    if ls.isEmpty then parseHeaderLinesRaw rest m
    else if ls.headD ' ' == '#' then parseHeaderLinesRaw rest m
    else if ls.any (fun c => c == ':') then
      let kv := partitionColon ls
      parseHeaderLinesRaw rest
        (dictInsert m (String.mk (pyStrip kv.1)) (String.mk (pyStrip kv.2)))
    else parseHeaderLinesRaw rest m

/-- Spec-words companion of `parse_frontmatter` keeping raw (non-quote-stripped)
values; delimiter handling is identical to the source. -/
def parse_frontmatter_rawvals (text : String) : Option Meta × String :=
  let s := text.data
  if threeDashes.isPrefixOf s then
    match findFrom s threeDashes 3 with
    | none => (none, text)
    | some e =>
      (some (parseHeaderLinesRaw (splitOnNl (pyStrip ((s.drop 3).take (e - 3)))) []),
       String.mk (pyStrip (s.drop (e + 3))))
  else (none, text)

/-- Following the spec's words for claim C2: the document "begins with a header
delimiter" iff its first line consists of exactly three hyphen characters. -/
def specBeginsWithDelimiterLine (text : String) : Bool :=
  (splitOnNl text.data).headD [] == threeDashes

/-- Membership of `c` in `[a-z0-9]`. -/
def isLowerDigit (c : Char) : Bool :=
  (decide ('a' ≤ c) && decide (c ≤ 'z')) || (decide ('0' ≤ c) && decide (c ≤ '9'))

/-- Embedding of `NAME_PATTERN.match(name)` for the regular expression
`^[a-z0-9][a-z0-9-]*[a-z0-9]$|^[a-z0-9]$`: nonempty, first and last character in
`[a-z0-9]`, interior characters in `[a-z0-9-]`.  (Python's `$` would also accept a
single trailing newline, but header values are produced by splitting on newlines
and can never contain one.) -/
def namePatternMatch : List Char → Bool
  | [] => false
  | [c] => isLowerDigit c
  | c :: rest =>
    isLowerDigit c
      && rest.dropLast.all (fun x => isLowerDigit x || x == '-')
      && (match rest.getLast? with
          | some d => isLowerDigit d
          | none => false)

/-- Result literals, one per `results.append(...)` site of the source. -/
def noFrontmatterRes : Result :=
  ⟨"ERROR", "frontmatter", "No YAML frontmatter found (must start with ---)"⟩

def missingNameRes : Result := ⟨"ERROR", "frontmatter", "Missing 'name' field"⟩

def nameTooLongRes (n : Nat) : Result :=
  ⟨"ERROR", "name", "Name too long: " ++ toString n ++ " chars (max 64)"⟩

def nameShapeRes (name : String) : Result :=
  ⟨"ERROR", "name", "Name '" ++ name ++ "' must be lowercase letters, numbers, hyphens only"⟩

def forbiddenWordRes (w : String) : Result :=
  ⟨"ERROR", "name", "Name must not contain '" ++ w ++ "'"⟩

def nameXmlRes : Result := ⟨"ERROR", "name", "Name must not contain XML tags"⟩

def missingDescRes : Result := ⟨"ERROR", "frontmatter", "Missing 'description' field"⟩

def descTooLongRes (n : Nat) : Result :=
  ⟨"ERROR", "description", "Description too long: " ++ toString n ++ " chars (max 1024)"⟩

def shortRes (n : Nat) : Result :=
  ⟨"WARN", "description", "Description very short: " ++ toString n ++ " chars (recommend >30)"⟩

def descXmlRes : Result := ⟨"ERROR", "description", "Description must not contain XML tags"⟩

def blockScalarRes : Result :=
  ⟨"ERROR", "description",
    "YAML multiline indicators (>- or |) break the skill indexer. Use single-quoted string."⟩

def thirdPersonIRes : Result :=
  ⟨"WARN", "description", "Description should be third person (not 'I can/will')"⟩

def thirdPersonYouRes : Result :=
  ⟨"WARN", "description", "Description should be third person (not 'you can/should')"⟩

def useWhenRes : Result :=
  ⟨"WARN", "description",
    "Description should include 'Use when...' language for better triggering"⟩

def unknownFieldRes (k : String) : Result :=
  ⟨"WARN", "frontmatter", "Unknown frontmatter field: '" ++ k ++ "'"⟩

def tooLongRes (n : Nat) : Result :=
  ⟨"ERROR", "body", "Body too long: " ++ toString n ++ " lines (max 500)"⟩

def approachRes (n : Nat) : Result :=
  ⟨"WARN", "body", "Body approaching limit: " ++ toString n ++ " lines (max 500)"⟩

def bodyShortRes : Result :=
  ⟨"WARN", "body", "Body is very short — may lack sufficient instructions"⟩

def noH1Res : Result :=
  ⟨"WARN", "body", "No H1 heading found — recommended to start with # Skill Name"⟩

def noSkillMdRes : Result := ⟨"ERROR", "structure", "SKILL.md not found"⟩

def forbiddenFileRes (nm : String) : Result :=
  ⟨"ERROR", "structure", "Forbidden file: " ++ nm ++ " (skills should not include auxiliary docs)"⟩

def noGitignoreRes : Result :=
  ⟨"WARN", "structure", "No .gitignore found — recommend excluding .venv/, data/, __pycache__/"⟩

def gitignoreMissingRes (pat : String) : Result :=
  ⟨"WARN", "structure", ".gitignore missing '" ++ pat ++ "' exclusion"⟩

def syntaxErrorRes (nm det : String) : Result :=
  ⟨"ERROR", "scripts", "Syntax error in " ++ nm ++ ": " ++ det⟩

def deepNestRes (rel : String) : Result :=
  ⟨"WARN", "structure", "Deep nesting: " ++ rel ++ " — keep references one level deep"⟩

/-- The `name` section of `validate_frontmatter`.  The loop over the two-element
forbidden word set is unrolled (the source iterates a Python set whose order is
implementation defined; no claim depends on the relative order of its two
diagnostics). -/
def nameChecks (m : Meta) : List Result :=
  let name := (dictGet m "name").getD ""
  if name = "" then [missingNameRes]
  else
    emitIf (decide (64 < name.length)) (nameTooLongRes name.length)
    ++ emitIf (!namePatternMatch name.data) (nameShapeRes name)
    ++ emitIf (strContains (pyLower name) "anthropic") (forbiddenWordRes "anthropic")
    ++ emitIf (strContains (pyLower name) "claude") (forbiddenWordRes "claude")
    ++ emitIf (strHasChar name '<' || strHasChar name '>') nameXmlRes

/-- The `description` section of `validate_frontmatter`, diagnostics in source
order: too long, too short, XML, block-scalar indicator, then the three quality
checks on the lowercased value. -/
def descChecks (m : Meta) : List Result :=
  let desc := (dictGet m "description").getD ""
  if desc = "" then [missingDescRes]
  else
    emitIf (decide (1024 < desc.length)) (descTooLongRes desc.length)
    ++ emitIf (decide (desc.length < 30)) (shortRes desc.length)
    ++ emitIf (strHasChar desc '<' && strHasChar desc '>') descXmlRes
    ++ emitIf (pyStartswith desc ">-" || pyStartswith desc "|") blockScalarRes
    ++ emitIf (pyStartswith (pyLower desc) "i "
                || strContains (pyLower desc) "i can"
                || strContains (pyLower desc) "i will") thirdPersonIRes
    ++ emitIf (strContains (pyLower desc) "you can"
                || strContains (pyLower desc) "you should") thirdPersonYouRes
    ++ emitIf (!(strContains (pyLower desc) "use when")
                && !(strContains (pyLower desc) "use this")) useWhenRes

/-- The allow-list of frontmatter fields. -/
def allowedFields : List String :=
  ["name", "description", "argument-hint", "disable-model-invocation",
   "user-invocable", "allowed-tools", "model", "context", "agent",
   "hooks", "license", "compatibility", "metadata"]

/-- The `for key in meta` loop of `validate_frontmatter`: one WARN per unknown key,
in dict iteration order. -/
def unknownFieldChecks (m : Meta) : List Result :=
  m.filterMap (fun p => if allowedFields.contains p.1 then none else some (unknownFieldRes p.1))

/-- Embedding of `validate_frontmatter`: on `None`, the single
no-frontmatter ERROR; otherwise the name, description and unknown-field sections
in source order. -/
def validate_frontmatter (meta : Option Meta) : List Result :=
  match meta with
  | none => [noFrontmatterRes]
  | some m => nameChecks m ++ descChecks m ++ unknownFieldChecks m

/-- The body's line list, `body.split("\n")`. -/
def bodyLines (body : String) : List (List Char) := splitOnNl body.data

/-- The `# ` prefix of a markdown H1 line. -/
def h1Marker : List Char := ['#', ' ']

/-- Embedding of `validate_body`.  `MAX_BODY_LINES * 0.8` is the exact float
`400.0`, so `line_count > MAX_BODY_LINES * 0.8` is `400 < line_count` on naturals. -/
def validate_body (body : String) : List Result :=
  let lines := bodyLines body
  let n := lines.length
  (if 500 < n then [tooLongRes n]
   else if 400 < n then [approachRes n]
   else [])
  ++ emitIf (decide (n < 5)) bodyShortRes
  ++ emitIf (!lines.any (fun l => h1Marker.isPrefixOf l)) noH1Res

/-- Outcome of the `try: source = read_text(); ast.parse(source)` block for one
entry matched by `scripts_dir.glob("*.py")`: a clean parse, a `SyntaxError` with
its rendered detail, or any other exception (encoding error, directory entry,
`ValueError`, ...), which the source swallows. -/
inductive PyOutcome where
  | ok : PyOutcome
  | syntaxError (detail : String) : PyOutcome
  | otherFailure : PyOutcome
  deriving DecidableEq

/-- One entry below the `scripts` directory: its path relative to `scripts/`
(as components) and the outcome the read-and-parse block would have on it. -/
structure ScriptEntry where
  path : List String
  outcome : PyOutcome
  deriving DecidableEq

/-- Name of an entry (Python `py_file.name`, the last path component). -/
def entryName (e : ScriptEntry) : String := (e.path.getLast?).getD ""

/-- Answers to every file-system query `validate_skill` makes, one field per
query site:
`pathExists` = `skill_dir.exists()`, `isDirectory` = `skill_dir.is_dir()`,
`hasSkillMd` = `(skill_dir / "SKILL.md").exists()`, `skillMd` = its text,
`topLevelNames` = names from `skill_dir.iterdir()` in listing order,
`hasGitignore` / `gitignoreText` = the `.gitignore` queries,
`hasScriptsDir` / `scriptFiles` = the `scripts` directory and everything below it,
`hasRefsDir` / `refFiles` = the `references` directory and the files
`rglob("*")` yields there (paths relative to the package root, so each starts
with the component "references"). -/
structure SkillDir where
  pathExists : Bool
  isDirectory : Bool
  hasSkillMd : Bool
  skillMd : String
  topLevelNames : List String
  hasGitignore : Bool
  gitignoreText : String
  hasScriptsDir : Bool
  scriptFiles : List ScriptEntry
  hasRefsDir : Bool
  refFiles : List (List String)

/-- The `FORBIDDEN_FILES` set. -/
def forbiddenFiles : List String :=
  ["README.md", "INSTALLATION_GUIDE.md", "QUICK_REFERENCE.md",
   "CHANGELOG.md", "SETUP.md", "CONTRIBUTING.md"]

/-- The diagnostics `validate_structure` accumulates once `SKILL.md` exists:
the forbidden-file, `.gitignore` (loop over the two patterns unrolled),
script-syntax and reference-nesting diagnostics in source order.
`scripts_dir.glob("*.py")` matches exactly the entries whose relative path is a
single component ending in `.py` (the glob is not recursive). -/
def structDiags (d : SkillDir) : List Result :=
  d.topLevelNames.filterMap
    (fun nm => if forbiddenFiles.contains nm then some (forbiddenFileRes nm) else none)
  ++ (if !d.hasGitignore then [noGitignoreRes]
      else emitIf (!strContains d.gitignoreText ".venv") (gitignoreMissingRes ".venv")
        ++ emitIf (!strContains d.gitignoreText "__pycache__") (gitignoreMissingRes "__pycache__"))
  ++ (if d.hasScriptsDir then
        (d.scriptFiles.filter
            (fun e => e.path.length == 1 && pyEndswith (entryName e) ".py")).filterMap
          (fun e =>
            match e.outcome with
            | PyOutcome.syntaxError det => some (syntaxErrorRes (entryName e) det)
            | _ => none)
      else [])
  ++ (if d.hasRefsDir then
        d.refFiles.filterMap
          (fun p => if 3 < p.length then some (deepNestRes (String.intercalate "/" p)) else none)
      else [])

/-- Embedding of `validate_structure`: on a missing `SKILL.md`, the single
structure ERROR and `None` (the early return); otherwise the accumulated
structural diagnostics and the text of `SKILL.md`. -/
def validate_structure (d : SkillDir) : List Result × Option String :=
  if !d.hasSkillMd then ([noSkillMdRes], none)
  else (structDiags d, some d.skillMd)

/-- Per-entry description of the script scan: an entry produces the naming ERROR
exactly when it sits directly inside `scripts/`, its name ends in `.py`, and its
parse outcome is a syntax error; every other entry produces nothing. -/
def scriptDiag (e : ScriptEntry) : Option Result :=
  match e.path, e.outcome with
  | [nm], PyOutcome.syntaxError det =>
    if pyEndswith nm ".py" then some (syntaxErrorRes nm det) else none
  | _, _ => none

/-- Is the diagnostic an ERROR (the partition `print_results` uses)? -/
def isError (r : Result) : Bool := r.level == "ERROR"

/-- Embedding of `validate_skill` keeping both observables: the diagnostics the
run accumulates (what `print_results` receives; the fatal `path` messages are
printed directly and are not diagnostics) and the exit code. -/
def validate_skill_run (d : SkillDir) : List Result × Nat :=
  if !d.pathExists then ([], 1)
  else if !d.isDirectory then ([], 1)
  else
    match validate_structure d with
    | (rs, none) => (rs, 1)
    | (rs, some content) =>
      let all := rs ++ validate_frontmatter (parse_frontmatter content).1
          ++ validate_body (parse_frontmatter content).2
      (all, if all.any isError then 1 else 0)

/-- The exit code of `validate_skill`. -/
def validate_skill (d : SkillDir) : Nat := (validate_skill_run d).2

/-- Spec-side failure condition for claim C1: a fatal condition (path missing,
path not a directory, entry file missing) or at least one ERROR diagnostic. -/
def failCond (d : SkillDir) : Bool :=
  !d.pathExists || !d.isDirectory || !d.hasSkillMd || (validate_skill_run d).1.any isError

/-- Prefix test on the message, used to select the diagnostics of one rule. -/
def msgStarts (p : String) (r : Result) : Bool := p.data.isPrefixOf r.message.data

/-- Category test on a diagnostic. -/
def checkIs (c : String) (r : Result) : Bool := r.check == c

/-- The full diagnostics list of a run that reaches the frontmatter and body
stages: structure, then frontmatter, then body, matching evaluation order. -/
def allDiags (d : SkillDir) : List Result :=
  structDiags d ++ validate_frontmatter (parse_frontmatter d.skillMd).1
    ++ validate_body (parse_frontmatter d.skillMd).2

/-- Concrete inputs used by witnesses and counterexamples. -/
def docNoHeader : String := "just a body with no header"

def dashesDoc : String := "------"

def docC2 : String := "---\na: b\n---\nbody"

def rawValDoc : String := "---\ndescription: \"|use when triaging requests\"\n---\nbody text"

def mC4 : Meta := [("description", "|use when needed")]

def desc30 : String := "abcdefghijklmnopqrstuvwxyz0123"

def desc29 : String := "abcdefghijklmnopqrstuvwxyz012"

def mC8a : Meta := [("description", desc30)]

def mC8b : Meta := [("description", desc29)]

def mC9 : Meta := [("name", ""), ("description", "")]

def body501 : String := String.mk (List.replicate 500 '\n')

def dC5cex : SkillDir :=
  ⟨true, true, true, "", [], true, ".venv __pycache__", true,
    [⟨["sub", "bad.py"], PyOutcome.syntaxError "invalid syntax"⟩], false, []⟩

def dC5wit : SkillDir :=
  ⟨true, true, true, "", [], true, ".venv __pycache__", true,
    [⟨["good.py"], PyOutcome.ok⟩,
     ⟨["bad.py"], PyOutcome.syntaxError "invalid syntax"⟩,
     ⟨["odd.py"], PyOutcome.otherFailure⟩,
     ⟨["data.bin"], PyOutcome.syntaxError "not python"⟩,
     ⟨["nested", "deep.py"], PyOutcome.syntaxError "boom"⟩], false, []⟩

def dC7 : SkillDir := ⟨true, true, false, "", [], false, "", false, [], false, []⟩

theorem emitIf_true (r : Result) : emitIf true r = [r] := rfl

theorem emitIf_false (r : Result) : emitIf false r = [] := rfl

theorem filter_emitIf (p : Result → Bool) (b : Bool) (r : Result) :
    (emitIf b r).filter p = if b && p r then [r] else [] := by
  cases b <;> cases hpr : p r <;> simp [emitIf, List.filter_cons, hpr]

theorem mem_emitIf {r0 r : Result} {b : Bool} : r ∈ emitIf b r0 ↔ b = true ∧ r = r0 := by
  cases b <;> simp [emitIf]

theorem filter_eq_nil_of_false {p : Result → Bool} :
    ∀ {l : List Result}, (∀ r ∈ l, p r = false) → l.filter p = [] := by
  intro l h
  induction l with
  | nil => rfl
  | cons a t ih =>
    simp [List.filter_cons, h a (by simp),
      ih (fun r hr => h r (List.mem_cons_of_mem a hr))]

theorem filter_eq_self_of_true {p : Result → Bool} :
    ∀ {l : List Result}, (∀ r ∈ l, p r = true) → l.filter p = l := by
  intro l h
  induction l with
  | nil => rfl
  | cons a t ih =>
    simp [List.filter_cons, h a (by simp),
      ih (fun r hr => h r (List.mem_cons_of_mem a hr))]

theorem splitOnNl_ne_nil : ∀ s : List Char, splitOnNl s ≠ [] := by
  intro s
  induction s with
  | nil => simp [splitOnNl]
  | cons c rest ih =>
    unfold splitOnNl
    cases hc : (c == '\n') <;> simp [hc]
    split <;> simp

/-! Evaluation of the selector predicates on each diagnostic constructor.
Each proof is definitional: the distinguishing characters lie in the literal
part of the message, before any interpolated value. -/

theorem selVS_short (n : Nat) : msgStarts "Description very short" (shortRes n) = true := rfl

theorem selVS_missingName : msgStarts "Description very short" missingNameRes = false := rfl

theorem selVS_nameTooLong (n : Nat) : msgStarts "Description very short" (nameTooLongRes n) = false := rfl

theorem selVS_nameShape (s : String) : msgStarts "Description very short" (nameShapeRes s) = false := rfl

theorem selVS_forbiddenWord (w : String) : msgStarts "Description very short" (forbiddenWordRes w) = false := rfl

theorem selVS_nameXml : msgStarts "Description very short" nameXmlRes = false := rfl

theorem selVS_missingDesc : msgStarts "Description very short" missingDescRes = false := rfl

theorem selVS_descTooLong (n : Nat) : msgStarts "Description very short" (descTooLongRes n) = false := rfl

theorem selVS_descXml : msgStarts "Description very short" descXmlRes = false := rfl

theorem selVS_blockScalar : msgStarts "Description very short" blockScalarRes = false := rfl

theorem selVS_thirdI : msgStarts "Description very short" thirdPersonIRes = false := rfl

theorem selVS_thirdYou : msgStarts "Description very short" thirdPersonYouRes = false := rfl

theorem selVS_useWhen : msgStarts "Description very short" useWhenRes = false := rfl

theorem selVS_unknown (k : String) : msgStarts "Description very short" (unknownFieldRes k) = false := rfl

theorem selYM_blockScalar : msgStarts "YAML multiline" blockScalarRes = true := rfl

theorem selYM_missingName : msgStarts "YAML multiline" missingNameRes = false := rfl

theorem selYM_nameTooLong (n : Nat) : msgStarts "YAML multiline" (nameTooLongRes n) = false := rfl

theorem selYM_nameShape (s : String) : msgStarts "YAML multiline" (nameShapeRes s) = false := rfl

theorem selYM_forbiddenWord (w : String) : msgStarts "YAML multiline" (forbiddenWordRes w) = false := rfl

theorem selYM_nameXml : msgStarts "YAML multiline" nameXmlRes = false := rfl

theorem selYM_missingDesc : msgStarts "YAML multiline" missingDescRes = false := rfl

theorem selYM_descTooLong (n : Nat) : msgStarts "YAML multiline" (descTooLongRes n) = false := rfl

theorem selYM_short (n : Nat) : msgStarts "YAML multiline" (shortRes n) = false := rfl

theorem selYM_descXml : msgStarts "YAML multiline" descXmlRes = false := rfl

theorem selYM_thirdI : msgStarts "YAML multiline" thirdPersonIRes = false := rfl

theorem selYM_thirdYou : msgStarts "YAML multiline" thirdPersonYouRes = false := rfl

theorem selYM_useWhen : msgStarts "YAML multiline" useWhenRes = false := rfl

theorem selYM_unknown (k : String) : msgStarts "YAML multiline" (unknownFieldRes k) = false := rfl

theorem selName_missingName : checkIs "name" missingNameRes = false := rfl

theorem selName_missingDesc : checkIs "name" missingDescRes = false := rfl

theorem selName_descTooLong (n : Nat) : checkIs "name" (descTooLongRes n) = false := rfl

theorem selName_short (n : Nat) : checkIs "name" (shortRes n) = false := rfl

theorem selName_descXml : checkIs "name" descXmlRes = false := rfl

theorem selName_blockScalar : checkIs "name" blockScalarRes = false := rfl

theorem selName_thirdI : checkIs "name" thirdPersonIRes = false := rfl

theorem selName_thirdYou : checkIs "name" thirdPersonYouRes = false := rfl

theorem selName_useWhen : checkIs "name" useWhenRes = false := rfl

theorem selName_unknown (k : String) : checkIs "name" (unknownFieldRes k) = false := rfl

theorem selDesc_missingName : checkIs "description" missingNameRes = false := rfl

theorem selDesc_missingDesc : checkIs "description" missingDescRes = false := rfl

theorem selDesc_nameTooLong (n : Nat) : checkIs "description" (nameTooLongRes n) = false := rfl

theorem selDesc_nameShape (s : String) : checkIs "description" (nameShapeRes s) = false := rfl

theorem selDesc_forbiddenWord (w : String) : checkIs "description" (forbiddenWordRes w) = false := rfl

theorem selDesc_nameXml : checkIs "description" nameXmlRes = false := rfl

theorem selDesc_unknown (k : String) : checkIs "description" (unknownFieldRes k) = false := rfl

theorem selScr_forbiddenFile (nm : String) : checkIs "scripts" (forbiddenFileRes nm) = false := rfl

theorem selScr_noGitignore : checkIs "scripts" noGitignoreRes = false := rfl

theorem selScr_gitignoreMissing (pat : String) : checkIs "scripts" (gitignoreMissingRes pat) = false := rfl

theorem selScr_deepNest (rel : String) : checkIs "scripts" (deepNestRes rel) = false := rfl

theorem selScr_syntaxError (nm det : String) : checkIs "scripts" (syntaxErrorRes nm det) = true := rfl

theorem selBTL_tooLong (n : Nat) : msgStarts "Body too long" (tooLongRes n) = true := rfl

theorem selBTL_approach (n : Nat) : msgStarts "Body too long" (approachRes n) = false := rfl

theorem selBTL_bodyShort : msgStarts "Body too long" bodyShortRes = false := rfl

theorem selBTL_noH1 : msgStarts "Body too long" noH1Res = false := rfl

theorem selBAP_tooLong (n : Nat) : msgStarts "Body approaching" (tooLongRes n) = false := rfl

theorem selBAP_approach (n : Nat) : msgStarts "Body approaching" (approachRes n) = true := rfl

theorem selBAP_bodyShort : msgStarts "Body approaching" bodyShortRes = false := rfl

theorem selBAP_noH1 : msgStarts "Body approaching" noH1Res = false := rfl

theorem selBVS_tooLong (n : Nat) : msgStarts "Body is very short" (tooLongRes n) = false := rfl

theorem selBVS_approach (n : Nat) : msgStarts "Body is very short" (approachRes n) = false := rfl

theorem selBVS_bodyShort : msgStarts "Body is very short" bodyShortRes = true := rfl

theorem selBVS_noH1 : msgStarts "Body is very short" noH1Res = false := rfl

theorem selNH1_tooLong (n : Nat) : msgStarts "No H1" (tooLongRes n) = false := rfl

theorem selNH1_approach (n : Nat) : msgStarts "No H1" (approachRes n) = false := rfl

theorem selNH1_bodyShort : msgStarts "No H1" bodyShortRes = false := rfl

theorem selNH1_noH1 : msgStarts "No H1" noH1Res = true := rfl

theorem filter_nameChecks (p : Result → Bool) (m : Meta)
    (h1 : p missingNameRes = false) (h2 : ∀ n, p (nameTooLongRes n) = false)
    (h3 : ∀ s, p (nameShapeRes s) = false) (h4 : ∀ w, p (forbiddenWordRes w) = false)
    (h5 : p nameXmlRes = false) :
    (nameChecks m).filter p = [] := by
  unfold nameChecks
  by_cases h : ((dictGet m "name").getD "") = ""
  · simp [h, List.filter_cons, h1]
  · simp [h, List.filter_append, filter_emitIf, h2, h3, h4, h5]

theorem filter_unknownChecks (p : Result → Bool) (m : Meta)
    (hk : ∀ k, p (unknownFieldRes k) = false) :
    (unknownFieldChecks m).filter p = [] := by
  apply filter_eq_nil_of_false
  intro r hr
  simp only [unknownFieldChecks, List.mem_filterMap] at hr
  obtain ⟨a, _, ha⟩ := hr
  split at ha
  · exact absurd ha (by simp)
  · rw [← Option.some_inj.mp ha]
    exact hk a.1

theorem filter_descChecks_nil (p : Result → Bool) (m : Meta)
    (h0 : p missingDescRes = false) (h1 : ∀ n, p (descTooLongRes n) = false)
    (h2 : ∀ n, p (shortRes n) = false) (h3 : p descXmlRes = false)
    (h4 : p blockScalarRes = false) (h5 : p thirdPersonIRes = false)
    (h6 : p thirdPersonYouRes = false) (h7 : p useWhenRes = false) :
    (descChecks m).filter p = [] := by
  unfold descChecks
  by_cases h : ((dictGet m "description").getD "") = ""
  · simp [h, List.filter_cons, h0]
  · simp [h, List.filter_append, filter_emitIf, h1, h2, h3, h4, h5, h6, h7]

theorem filter_descChecks_veryShort (m : Meta) (desc : String)
    (hget : dictGet m "description" = some desc) (hne : desc ≠ "") :
    (descChecks m).filter (msgStarts "Description very short")
      = if desc.length < 30 then [shortRes desc.length] else [] := by
  unfold descChecks
  rw [hget]
  simp only [Option.getD_some]
  rw [if_neg hne]
  simp [List.filter_append, filter_emitIf, selVS_descTooLong, selVS_short, selVS_descXml,
    selVS_blockScalar, selVS_thirdI, selVS_thirdYou, selVS_useWhen]

theorem filter_descChecks_yaml (m : Meta) (desc : String)
    (hget : dictGet m "description" = some desc) (hne : desc ≠ "") :
    (descChecks m).filter (msgStarts "YAML multiline")
      = if pyStartswith desc ">-" || pyStartswith desc "|" then [blockScalarRes] else [] := by
  unfold descChecks
  rw [hget]
  simp only [Option.getD_some]
  rw [if_neg hne]
  simp [List.filter_append, filter_emitIf, selYM_descTooLong, selYM_short, selYM_descXml,
    selYM_blockScalar, selYM_thirdI, selYM_thirdYou, selYM_useWhen]

theorem entryName_single (nm : String) (o : PyOutcome) :
    entryName ⟨[nm], o⟩ = nm := rfl

theorem scripts_filterMap_eq (l : List ScriptEntry) :
    (l.filter (fun e => e.path.length == 1 && pyEndswith (entryName e) ".py")).filterMap
      (fun e =>
        match e.outcome with
        | PyOutcome.syntaxError det => some (syntaxErrorRes (entryName e) det)
        | _ => none)
    = l.filterMap scriptDiag := by
  induction l with
  | nil => rfl
  | cons e t ih =>
    obtain ⟨p, o⟩ := e
    match p, o with
    | [], o =>
      cases o <;> simp [List.filter_cons, List.filterMap_cons, scriptDiag, ih]
    | [nm], o =>
      cases hpy : pyEndswith nm ".py" <;>
        cases o <;>
          simp [List.filter_cons, List.filterMap_cons, scriptDiag, entryName_single, hpy, ih]
    | nm :: x :: xs, o =>
      cases o <;> simp [List.filter_cons, List.filterMap_cons, scriptDiag, ih]

theorem validate_body_eq (body : String) :
    validate_body body =
      (if 500 < (bodyLines body).length then [tooLongRes (bodyLines body).length]
       else if 400 < (bodyLines body).length then [approachRes (bodyLines body).length]
       else [])
      ++ (if (bodyLines body).length < 5 then [bodyShortRes] else [])
      ++ (if (bodyLines body).any (fun l => h1Marker.isPrefixOf l) then [] else [noH1Res]) := by
  unfold validate_body emitIf
  cases h : (bodyLines body).any (fun l => h1Marker.isPrefixOf l) <;> simp [h]

theorem run_eq_fatal1 (d : SkillDir) (hp : d.pathExists = false) :
    validate_skill_run d = ([], 1) := by
  unfold validate_skill_run
  simp [hp]

theorem run_eq_fatal2 (d : SkillDir) (hp : d.pathExists = true) (hd : d.isDirectory = false) :
    validate_skill_run d = ([], 1) := by
  unfold validate_skill_run
  simp [hp, hd]

theorem run_eq_noskill (d : SkillDir) (hp : d.pathExists = true) (hd : d.isDirectory = true)
    (hs : d.hasSkillMd = false) : validate_skill_run d = ([noSkillMdRes], 1) := by
  unfold validate_skill_run
  simp [hp, hd, validate_structure, hs]

theorem run_eq_main (d : SkillDir) (hp : d.pathExists = true) (hd : d.isDirectory = true)
    (hs : d.hasSkillMd = true) :
    validate_skill_run d = (allDiags d, if (allDiags d).any isError then 1 else 0) := by
  unfold validate_skill_run
  simp [hp, hd, validate_structure, hs, allDiags]

/-- Claim C1: the validator's exit code is 1 iff the run is fatal (path not
found, path not a directory, or the entry file SKILL.md missing) or at least one
ERROR diagnostic was produced, and 0 otherwise, regardless of how many WARN
diagnostics were produced (`failCond` states exactly that condition). -/
theorem exit_error_dominant : ∀ d : SkillDir,
    (validate_skill d = 1 ↔ failCond d = true) ∧ (validate_skill d = 0 ↔ failCond d = false) := by
  intro d
  unfold validate_skill failCond
  cases hp : d.pathExists
  · rw [run_eq_fatal1 d hp]
    simp [hp]
  · cases hdir : d.isDirectory
    · rw [run_eq_fatal2 d hp hdir]
      simp [hp, hdir]
    · cases hs : d.hasSkillMd
      · rw [run_eq_noskill d hp hdir hs]
        simp [hp, hdir, hs, isError, noSkillMdRes]
      · rw [run_eq_main d hp hdir hs]
        simp only [hp, hdir, hs, Bool.not_true, Bool.false_or]
        cases ha : (allDiags d).any isError <;> simp [ha]

/-- Claim C2, corrected: `parse_frontmatter` returns `(None, fullText)` exactly
when the text does not begin with the three-character *substring* `---`, or no
occurrence of the substring `---` exists at offset `≥ 3` (the source checks
substrings, not delimiter lines); otherwise, with `e` the least such offset, the
header is parsed from `text[3:e]` and the body is `text[e+3:]` trimmed. -/
theorem frontmatter_parse_none_iff : ∀ text : String,
    (parse_frontmatter text = (none, text)
      ↔ threeDashes.isPrefixOf text.data = false ∨ findFrom text.data threeDashes 3 = none)
    ∧ (∀ e : Nat, threeDashes.isPrefixOf text.data = true →
        findFrom text.data threeDashes 3 = some e →
        (parse_frontmatter text).1
            = some (parseHeaderLines (splitOnNl (pyStrip ((text.data.drop 3).take (e - 3)))) [])
          ∧ (parse_frontmatter text).2 = String.mk (pyStrip (text.data.drop (e + 3)))) := by
  intro text
  constructor
  · unfold parse_frontmatter
    cases hpre : threeDashes.isPrefixOf text.data
    · simp [hpre]
    · cases hf : findFrom text.data threeDashes 3 <;> simp [hpre, hf]
  · intro e hpre hf
    unfold parse_frontmatter
    simp [hpre, hf]

/-- Claim C2, counterexample to the claim as stated: `"------"` does not begin
with a delimiter *line* of exactly three hyphens, yet the parser does not return
`(None, fullText)` — it returns an empty header and an empty body. -/
theorem frontmatter_delimiter_substring_cex :
    specBeginsWithDelimiterLine dashesDoc = false
    ∧ parse_frontmatter dashesDoc ≠ (none, dashesDoc)
    ∧ parse_frontmatter dashesDoc = (some [], "") := by decide

theorem frontmatter_parse_none_iff_witness :
    threeDashes.isPrefixOf docC2.data = true
    ∧ findFrom docC2.data threeDashes 3 = some 9
    ∧ ((parse_frontmatter docC2).1
          = some (parseHeaderLines (splitOnNl (pyStrip ((docC2.data.drop 3).take (9 - 3)))) [])
        ∧ (parse_frontmatter docC2).2 = String.mk (pyStrip (docC2.data.drop (9 + 3)))) :=
  ⟨by decide, by decide, (frontmatter_parse_none_iff docC2).2 9 (by decide) (by decide)⟩

/-- Claim C3: whenever the parsed header is `None`, the header-rule stage
produces exactly the single ERROR diagnostic in category "frontmatter" about the
missing header block, and no other header rule fires. -/
theorem no_frontmatter_single_error : ∀ text : String,
    (parse_frontmatter text).1 = none →
    validate_frontmatter (parse_frontmatter text).1 = [noFrontmatterRes] := by
  intro t h
  rw [h]
  rfl

theorem no_frontmatter_single_error_witness :
    (parse_frontmatter docNoHeader).1 = none
    ∧ validate_frontmatter (parse_frontmatter docNoHeader).1 = [noFrontmatterRes] :=
  ⟨by decide, no_frontmatter_single_error docNoHeader (by decide)⟩

/-- Claim C7: when the package directory exists and is a directory but the entry
file SKILL.md is absent, the run stops with exit code 1 and its diagnostics are
exactly the single structural ERROR — no header, body or further diagnostics. -/
theorem missing_entry_hard_stop : ∀ d : SkillDir,
    d.pathExists = true → d.isDirectory = true → d.hasSkillMd = false →
    validate_skill d = 1 ∧ (validate_skill_run d).1 = [noSkillMdRes] := by
  intro d hp hd hs
  have h := run_eq_noskill d hp hd hs
  exact ⟨by unfold validate_skill; rw [h], by rw [h]⟩

theorem missing_entry_hard_stop_witness :
    dC7.pathExists = true ∧ dC7.isDirectory = true ∧ dC7.hasSkillMd = false
    ∧ validate_skill dC7 = 1 ∧ (validate_skill_run dC7).1 = [noSkillMdRes] :=
  ⟨rfl, rfl, rfl, (missing_entry_hard_stop dC7 rfl rfl rfl).1,
    (missing_entry_hard_stop dC7 rfl rfl rfl).2⟩

/-- Claim C10: the line count used by the body rules is at least 1 for every
body (the split of the empty string yields one empty line), and an empty body
receives both the "very short" WARN and the "no top-level heading" WARN. -/
theorem body_line_count_positive :
    (∀ body : String, 1 ≤ (bodyLines body).length)
    ∧ bodyShortRes ∈ validate_body "" ∧ noH1Res ∈ validate_body "" := by
  refine ⟨?_, by decide, by decide⟩
  intro body
  exact List.length_pos.mpr (splitOnNl_ne_nil body.data)

theorem filter_filterMap_nil {α : Type} (p : Result → Bool) (g : α → Option Result)
    (l : List α) (h : ∀ a r, g a = some r → p r = false) :
    (l.filterMap g).filter p = [] := by
  apply filter_eq_nil_of_false
  intro r hr
  rw [List.mem_filterMap] at hr
  obtain ⟨a, _, ha⟩ := hr
  exact h a r ha

theorem scriptDiag_some {e : ScriptEntry} {r : Result} (h : scriptDiag e = some r) :
    checkIs "scripts" r = true := by
  rcases e with ⟨p0, o0⟩
  rcases p0 with _ | ⟨nm, rest⟩
  · simp [scriptDiag] at h
  rcases rest with _ | ⟨x, xs⟩
  · rcases o0 with _ | det | _
    · simp [scriptDiag] at h
    · cases hpy : pyEndswith nm ".py" <;> simp [scriptDiag, hpy] at h
      rw [← h]
      exact selScr_syntaxError _ _
    · simp [scriptDiag] at h
  · simp [scriptDiag] at h

/-- Claim C4, corrected: the block-scalar rule inspects the header value *after*
the parser's whitespace-trim and quote-stripping (the stored value), not the raw
value as it appeared on the line: for every header and nonempty stored
description, the ERROR fires exactly when the stored value starts with `>-` or
`|`. -/
theorem block_scalar_checks_stripped_value : ∀ (m : Meta) (desc : String),
    dictGet m "description" = some desc → desc ≠ "" →
    (validate_frontmatter (some m)).filter (msgStarts "YAML multiline")
      = if pyStartswith desc ">-" || pyStartswith desc "|" then [blockScalarRes] else [] := by
  intro m desc hget hne
  show (nameChecks m ++ descChecks m ++ unknownFieldChecks m).filter _ = _
  rw [List.filter_append, List.filter_append,
    filter_nameChecks _ _ selYM_missingName selYM_nameTooLong selYM_nameShape
      selYM_forbiddenWord selYM_nameXml,
    filter_unknownChecks _ _ selYM_unknown,
    filter_descChecks_yaml m desc hget hne]
  simp

/-- Claim C4, counterexample to the claim as stated: in `rawValDoc` the raw
header value is `"|use when triaging requests"` *with* its surrounding double
quotes, which does not start with `>-` or `|`; the rule nevertheless fires,
because the source checks the quote-stripped value. -/
theorem block_scalar_raw_value_cex :
    blockScalarRes ∈ validate_frontmatter (parse_frontmatter rawValDoc).1
    ∧ dictGet (((parse_frontmatter_rawvals rawValDoc).1).getD []) "description"
        = some "\"|use when triaging requests\""
    ∧ (pyStartswith "\"|use when triaging requests\"" ">-"
        || pyStartswith "\"|use when triaging requests\"" "|") = false := by decide

theorem block_scalar_checks_stripped_value_witness :
    dictGet mC4 "description" = some "|use when needed"
    ∧ (validate_frontmatter (some mC4)).filter (msgStarts "YAML multiline") = [blockScalarRes] := by
  refine ⟨by decide, ?_⟩
  rw [block_scalar_checks_stripped_value mC4 "|use when needed" (by decide) (by decide)]
  decide

/-- Claim C5, corrected: the structural scanner's script diagnostics are exactly
`scriptDiag` over the entries of the scripts directory — only files *directly*
inside it (relative path of one component) whose name ends in `.py` are parsed;
a syntax error yields the ERROR naming the file, any other outcome yields
nothing, and files in nested subdirectories are never scanned. -/
theorem script_scan_top_level_only : ∀ d : SkillDir, d.hasSkillMd = true →
    (validate_structure d).1.filter (checkIs "scripts")
      = if d.hasScriptsDir then d.scriptFiles.filterMap scriptDiag else [] := by
  intro d h
  have h1 : (validate_structure d).1 = structDiags d := by
    unfold validate_structure
    rw [h]
    rfl
  rw [h1]
  unfold structDiags
  rw [List.filter_append, List.filter_append, List.filter_append]
  have hforb : (d.topLevelNames.filterMap
      (fun nm => if forbiddenFiles.contains nm then some (forbiddenFileRes nm)
        else none)).filter (checkIs "scripts") = [] := by
    apply filter_filterMap_nil
    intro a r ha
    split at ha
    · injection ha with h2
      rw [← h2]
      exact selScr_forbiddenFile a
    · exact Option.noConfusion ha
  have hgi : ((if !d.hasGitignore then [noGitignoreRes]
      else emitIf (!strContains d.gitignoreText ".venv") (gitignoreMissingRes ".venv")
        ++ emitIf (!strContains d.gitignoreText "__pycache__")
            (gitignoreMissingRes "__pycache__"))).filter (checkIs "scripts") = [] := by
    cases hg : d.hasGitignore <;>
      simp [hg, List.filter_cons, List.filter_append, filter_emitIf,
        selScr_noGitignore, selScr_gitignoreMissing]
  have hrefs : ((if d.hasRefsDir then
      d.refFiles.filterMap
        (fun p => if 3 < p.length then some (deepNestRes (String.intercalate "/" p)) else none)
      else [])).filter (checkIs "scripts") = [] := by
    cases hr : d.hasRefsDir
    · simp
    · rw [if_pos rfl]
      apply filter_filterMap_nil
      intro a r ha
      split at ha
      · injection ha with h2
        rw [← h2]
        exact selScr_deepNest _
      · exact Option.noConfusion ha
  have hscr : ((if d.hasScriptsDir then
      (d.scriptFiles.filter
          (fun e => e.path.length == 1 && pyEndswith (entryName e) ".py")).filterMap
        (fun e =>
          match e.outcome with
          | PyOutcome.syntaxError det => some (syntaxErrorRes (entryName e) det)
          | _ => none)
      else [])).filter (checkIs "scripts")
      = (if d.hasScriptsDir then d.scriptFiles.filterMap scriptDiag else []) := by
    cases hsd : d.hasScriptsDir
    · simp
    · rw [if_pos rfl, if_pos rfl, scripts_filterMap_eq]
      apply filter_eq_self_of_true
      intro r hr
      rw [List.mem_filterMap] at hr
      obtain ⟨e, _, he⟩ := hr
      exact scriptDiag_some he
  rw [hforb, hgi, hscr, hrefs]
  simp

/-- Claim C5, counterexample to the claim as stated: `dC5cex` has a script file
with a syntax error at `scripts/sub/bad.py` (nested one level), yet the entire
structural scan emits no diagnostic at all — the glob never visits it. -/
theorem nested_script_not_scanned_cex :
    dC5cex.scriptFiles = [⟨["sub", "bad.py"], PyOutcome.syntaxError "invalid syntax"⟩]
    ∧ (validate_structure dC5cex).1 = [] := by decide

theorem script_scan_top_level_only_witness :
    dC5wit.hasSkillMd = true
    ∧ (validate_structure dC5wit).1.filter (checkIs "scripts")
        = [syntaxErrorRes "bad.py" "invalid syntax"] := by
  refine ⟨rfl, ?_⟩
  rw [script_scan_top_level_only dC5wit rfl]
  decide

/-- Claim C8: a description of length exactly 30 never receives the "too short"
WARN; a description of length exactly 29 always does. -/
theorem description_length_threshold : ∀ (m : Meta) (desc : String),
    dictGet m "description" = some desc →
    (desc.length = 30 →
      (validate_frontmatter (some m)).filter (msgStarts "Description very short") = [])
    ∧ (desc.length = 29 →
      (validate_frontmatter (some m)).filter (msgStarts "Description very short")
        = [shortRes 29]) := by
  intro m desc hget
  have hbase : (validate_frontmatter (some m)).filter (msgStarts "Description very short")
      = (descChecks m).filter (msgStarts "Description very short") := by
    show (nameChecks m ++ descChecks m ++ unknownFieldChecks m).filter _ = _
    rw [List.filter_append, List.filter_append,
      filter_nameChecks _ _ selVS_missingName selVS_nameTooLong selVS_nameShape
        selVS_forbiddenWord selVS_nameXml,
      filter_unknownChecks _ _ selVS_unknown]
    simp
  constructor
  · intro h30
    have hne : desc ≠ "" := fun he => absurd (he ▸ h30) (by decide)
    rw [hbase, filter_descChecks_veryShort m desc hget hne, h30]
    simp
  · intro h29
    have hne : desc ≠ "" := fun he => absurd (he ▸ h29) (by decide)
    rw [hbase, filter_descChecks_veryShort m desc hget hne, h29]
    simp

theorem description_length_threshold_witness :
    (dictGet mC8a "description" = some desc30 ∧ desc30.length = 30
      ∧ (validate_frontmatter (some mC8a)).filter (msgStarts "Description very short") = [])
    ∧ (dictGet mC8b "description" = some desc29 ∧ desc29.length = 29
      ∧ (validate_frontmatter (some mC8b)).filter (msgStarts "Description very short")
          = [shortRes 29]) :=
  ⟨⟨by decide, by decide,
      (description_length_threshold mC8a desc30 (by decide)).1 (by decide)⟩,
   ⟨by decide, by decide,
      (description_length_threshold mC8b desc29 (by decide)).2 (by decide)⟩⟩

/-- Claim C9: a `name` (resp. `description`) key mapping to the empty string is
reported exactly like an absent field — the missing-field ERROR in category
"frontmatter" is emitted and no per-field rule of that field (category "name",
resp. "description") fires. -/
theorem empty_field_as_missing : ∀ m : Meta,
    (dictGet m "name" = some "" →
      missingNameRes ∈ validate_frontmatter (some m)
      ∧ (validate_frontmatter (some m)).filter (checkIs "name") = [])
    ∧ (dictGet m "description" = some "" →
      missingDescRes ∈ validate_frontmatter (some m)
      ∧ (validate_frontmatter (some m)).filter (checkIs "description") = []) := by
  intro m
  constructor
  · intro hget
    have hname : nameChecks m = [missingNameRes] := by
      unfold nameChecks
      rw [hget]
      rfl
    constructor
    · show missingNameRes ∈ nameChecks m ++ descChecks m ++ unknownFieldChecks m
      rw [hname]
      exact List.mem_append_left _ (List.mem_append_left _ (List.mem_singleton_self _))
    · show (nameChecks m ++ descChecks m ++ unknownFieldChecks m).filter _ = []
      rw [List.filter_append, List.filter_append, hname,
        filter_descChecks_nil _ _ selName_missingDesc selName_descTooLong selName_short
          selName_descXml selName_blockScalar selName_thirdI selName_thirdYou selName_useWhen,
        filter_unknownChecks _ _ selName_unknown]
      simp [List.filter_cons, selName_missingName]
  · intro hget
    have hdesc : descChecks m = [missingDescRes] := by
      unfold descChecks
      rw [hget]
      rfl
    constructor
    · show missingDescRes ∈ nameChecks m ++ descChecks m ++ unknownFieldChecks m
      rw [hdesc]
      exact List.mem_append_left _ (List.mem_append_right _ (List.mem_singleton_self _))
    · show (nameChecks m ++ descChecks m ++ unknownFieldChecks m).filter _ = []
      rw [List.filter_append, List.filter_append, hdesc,
        filter_nameChecks _ _ selDesc_missingName selDesc_nameTooLong selDesc_nameShape
          selDesc_forbiddenWord selDesc_nameXml,
        filter_unknownChecks _ _ selDesc_unknown]
      simp [List.filter_cons, selDesc_missingDesc]

theorem empty_field_as_missing_witness :
    dictGet mC9 "name" = some "" ∧ dictGet mC9 "description" = some ""
    ∧ (missingNameRes ∈ validate_frontmatter (some mC9)
        ∧ (validate_frontmatter (some mC9)).filter (checkIs "name") = [])
    ∧ (missingDescRes ∈ validate_frontmatter (some mC9)
        ∧ (validate_frontmatter (some mC9)).filter (checkIs "description") = []) :=
  ⟨by decide, by decide, (empty_field_as_missing mC9).1 (by decide),
    (empty_field_as_missing mC9).2 (by decide)⟩

/-- Claim C6: the four body rules — line count above 500 produces the "too long"
ERROR, otherwise above 400 the "approaching" WARN (never both), below 5 the
"very short" WARN, and absence of any line starting with `# ` the "no H1" WARN —
each characterized exactly, and the 501-line no-heading body receives both the
too-long ERROR and the no-heading WARN. -/
theorem body_rules_spec :
    (∀ body : String,
      ((validate_body body).filter (msgStarts "Body too long")
        = if 500 < (bodyLines body).length then [tooLongRes (bodyLines body).length] else [])
      ∧ ((validate_body body).filter (msgStarts "Body approaching")
        = if 400 < (bodyLines body).length ∧ (bodyLines body).length ≤ 500
          then [approachRes (bodyLines body).length] else [])
      ∧ ((validate_body body).filter (msgStarts "Body is very short")
        = if (bodyLines body).length < 5 then [bodyShortRes] else [])
      ∧ ((validate_body body).filter (msgStarts "No H1")
        = if (bodyLines body).any (fun l => h1Marker.isPrefixOf l) then [] else [noH1Res]))
    ∧ tooLongRes 501 ∈ validate_body body501
    ∧ noH1Res ∈ validate_body body501 := by
  refine ⟨?_, by decide, by decide⟩
  intro body
  refine ⟨?_, ?_, ?_, ?_⟩ <;>
    rw [validate_body_eq body, List.filter_append, List.filter_append]
  · split_ifs <;>
      simp [List.filter_cons, selBTL_tooLong, selBTL_approach, selBTL_bodyShort, selBTL_noH1]
  · split_ifs <;>
      simp [List.filter_cons, selBAP_tooLong, selBAP_approach, selBAP_bodyShort, selBAP_noH1] <;>
      omega
  · split_ifs <;>
      simp [List.filter_cons, selBVS_tooLong, selBVS_approach, selBVS_bodyShort, selBVS_noH1]
  · split_ifs <;>
      simp [List.filter_cons, selNH1_tooLong, selNH1_approach, selNH1_bodyShort, selNH1_noH1]
